import Mathlib

/-!
Verification of the MiniContainer/KernelSight container runtime
(`src/runtime`): a shallow embedding in Lean 4 of the lifecycle manager
(`container.c`), the cgroup v2 controller (`cgroup.c`), the filesystem
assembler (`filesystem.c`) and the namespace orchestrator (`namespace.c`),
together with theorems about the embedded definitions.

External effects (syscalls, file reads and writes) are modelled by explicit
environment records whose fields give each call's outcome, and each embedded
operation returns, besides its result, a trace of the externally visible
actions it performed, in program order.
-/

namespace MiniContainer

/-! ## Error codes (container.h, `mc_error_t`) -/

def MC_OK : Int := 0
def MC_ERR_MEMORY : Int := -1
def MC_ERR_NAMESPACE : Int := -2
def MC_ERR_CGROUP : Int := -3
def MC_ERR_FILESYSTEM : Int := -4
def MC_ERR_PROCESS : Int := -5
def MC_ERR_PERMISSION : Int := -6
def MC_ERR_NOT_FOUND : Int := -7
def MC_ERR_INVALID : Int := -8
def MC_ERR_EXISTS : Int := -9
def MC_ERR_IO : Int := -10

/-! ## Container states (container.h, `container_state_t`) -/

inductive ContainerState where
  | created
  | running
  | stopped
  | paused
  | deleted
deriving DecidableEq, Repr

/-! ## Resource limits (container.h, `resource_limits_t`) -/

structure ResourceLimits where
  memory_limit_bytes : Int
  memory_swap_bytes : Int
  cpu_shares : Int
  cpu_quota_us : Int
  cpu_period_us : Int
  pids_max : Int
deriving DecidableEq, Repr

/-! ## Container configuration (container.h, `container_config_t`) -/

structure ContainerConfig where
  id : String
  name : String
  hostname : String
  rootfs : String
  cmd : List String
  env : List String
  limits : ResourceLimits
  enable_network : Bool
  enable_user_ns : Bool
deriving DecidableEq, Repr

/-! ## Container record (container.h, `container_t`) -/

structure Container where
  config : ContainerConfig
  state : ContainerState
  pid : Int
  exit_code : Int
  cgroup_path : String
  state_dir : String
  created_at : Int
  started_at : Int
  stopped_at : Int
deriving DecidableEq, Repr

/-! ## Cgroup controller: limit translation (cgroup.c, `cgroup_apply_limits`)

`cgroup_apply_limits` is embedded as the list of writes it issues to the
cgroup interface files, in program order.  Limit-setting failures are
warnings in the source (the function unconditionally returns `MC_OK`), so
the result code is not modelled separately.  The arithmetic on
`cpu_shares` is done on C `int`, a 32-bit two's-complement type whose
multiplication wraps; `toInt32` reduces a mathematical integer to that
representation. -/

inductive CgroupWrite where
  | memoryMax (v : Int)
  | memorySwapMax (v : Int)
  | cpuMax (quota period : Int)
  | cpuWeight (w : Int)
  | pidsMax (v : Int)
deriving DecidableEq, Repr

def CgroupWrite.isCpu : CgroupWrite → Bool
  | .cpuMax _ _ => true
  | .cpuWeight _ => true
  | _ => false

def CgroupWrite.isPidsMax : CgroupWrite → Bool
  | .pidsMax _ => true
  | _ => false

def CgroupWrite.isCpuWeight : CgroupWrite → Bool
  | .cpuWeight _ => true
  | _ => false

def CgroupWrite.isMemory : CgroupWrite → Bool
  | .memoryMax _ => true
  | .memorySwapMax _ => true
  | _ => false

/-- Reduction of an integer to 32-bit two's-complement, the value a C `int`
holds after a wrapping computation. -/
def toInt32 (n : Int) : Int := (n + 2 ^ 31) % 2 ^ 32 - 2 ^ 31

/-- cgroup.c lines 194-206: `int weight = (cpu_shares * 100) / 1024;` with
the two clamping `if`s.  The multiplication is 32-bit, C division truncates
toward zero (`Int.tdiv`). -/
def cpuWeightOfShares (shares : Int) : Int :=
  let w := Int.tdiv (toInt32 (shares * 100)) 1024
  let w1 := if w < 1 then 1 else w
  if w1 > 10000 then 10000 else w1

/-- cgroup.c, `cgroup_apply_limits`: the ordered list of interface-file
writes issued for a given limits record. -/
def cgroup_apply_limits_writes (l : ResourceLimits) : List CgroupWrite :=
  (if l.memory_limit_bytes > 0 then
    [CgroupWrite.memoryMax l.memory_limit_bytes] ++
      (if l.memory_swap_bytes ≥ 0 then
        [CgroupWrite.memorySwapMax l.memory_swap_bytes] else [])
   else []) ++
  (if l.cpu_quota_us > 0 then
    [CgroupWrite.cpuMax l.cpu_quota_us
      (if l.cpu_period_us > 0 then l.cpu_period_us else 100000)]
   else []) ++
  (if l.cpu_shares > 0 then
    [CgroupWrite.cpuWeight (cpuWeightOfShares l.cpu_shares)] else []) ++
  (if l.pids_max > 0 then [CgroupWrite.pidsMax l.pids_max] else [])

/-- The value the spec's limit table prescribes for `cpu.weight`:
`clamp((shares*100)/1024, 1, 10000)` over unbounded integers, with
truncating integer division. -/
def specCpuWeight (shares : Int) : Int :=
  min (max (Int.tdiv (shares * 100) 1024) 1) 10000

/-! ## Filesystem assembler: pivot root (filesystem.c, `fs_pivot_root`)

The mount-table effects are modelled by an environment giving each
syscall's outcome and a trace of the actions attempted, in program order.
The source ignores the result of `mkdir_p` on `.old_root`, treats a failed
`chdir("/")` and a failed detach-unmount of `/.old_root` as log-only, and
returns `MC_OK` once `pivot_root` itself has succeeded. -/

structure FsEnv where
  rootfsExistsDir : Bool
  mountPrivateOk : Bool
  bindMountOk : Bool
  pivotOk : Bool
  chdirOk : Bool
  umountOldRootOk : Bool
deriving DecidableEq, Repr

inductive FsEvent where
  | mountPrivateRec
  | bindMountRootfs
  | mkdirOldRoot (mode : Nat)
  | pivotRootSyscall
  | rmdirPutOld
  | chdirRoot
  | umountDetachOldRoot
  | rmdirOldRoot
deriving DecidableEq, Repr

/-- filesystem.c lines 24-65, `fs_pivot_root`.  `rootfs = none` models a
NULL pointer argument. -/
def fs_pivot_root (rootfs : Option String) (fenv : FsEnv) : Int × List FsEvent :=
  if rootfs = none ∨ fenv.rootfsExistsDir = false then
    (MC_ERR_FILESYSTEM, [])
  else if fenv.mountPrivateOk = false then
    (MC_ERR_FILESYSTEM, [FsEvent.mountPrivateRec])
  else if fenv.bindMountOk = false then
    (MC_ERR_FILESYSTEM, [FsEvent.mountPrivateRec, FsEvent.bindMountRootfs])
  else if fenv.pivotOk = false then
    (MC_ERR_FILESYSTEM,
      [FsEvent.mountPrivateRec, FsEvent.bindMountRootfs,
       FsEvent.mkdirOldRoot 0o700, FsEvent.pivotRootSyscall,
       FsEvent.rmdirPutOld])
  else
    (MC_OK,
      [FsEvent.mountPrivateRec, FsEvent.bindMountRootfs,
       FsEvent.mkdirOldRoot 0o700, FsEvent.pivotRootSyscall,
       FsEvent.chdirRoot, FsEvent.umountDetachOldRoot, FsEvent.rmdirOldRoot])

/-! ## Namespace orchestrator (namespace.c)

`container_child` runs inside the clone; `ns_create` is the parent side.
Both are embedded as traces of externally visible actions in program
order, with an environment providing each external call's outcome. -/

inductive NsEvent where
  | parentCreatePipe
  | parentAllocStack
  | parentClone
  | writeSetgroupsDeny
  | writeUidMap
  | writeGidMap
  | parentKillChild
  | parentCloseReadEnd
  | writeReleaseByte
  | parentCloseWriteEnd
  | childCloseWriteEnd
  | childReadSyncPipe
  | childCloseReadEnd
  | setHostnameUts (h : String)
  | pivotRootCall
  | mountEssentialsCall
  | clearEnvCall
  | execCall (path : String)
deriving DecidableEq, Repr

/-- Events that touch the child's UTS namespace or its mount namespace. -/
def NsEvent.isUtsOrMountWork : NsEvent → Bool
  | .setHostnameUts _ => true
  | .pivotRootCall => true
  | .mountEssentialsCall => true
  | _ => false

structure ChildEnv where
  readOk : Bool
  sethostnameOk : Bool
  pivotResult : Int
  execOk : Bool
deriving DecidableEq, Repr

/-- The part of namespace.c's `container_child` (lines 128-173) that runs
after the synchronisation read has returned: close the read end, set the
hostname (`ns_setup_uts`, lines 55-67, is inlined: an empty hostname
returns `MC_OK` without calling `sethostname`), pivot-root and mount
essentials when a rootfs is configured (`fs_mount_essentials`,
filesystem.c lines 67-95, unconditionally returns `MC_OK`), reset the
environment and exec. -/
def child_after_read (config : ContainerConfig) (cenv : ChildEnv) :
    List NsEvent × Option Nat :=
  let t1 := [NsEvent.childCloseReadEnd]
  let utsTrace :=
    if config.hostname = "" then [] else [NsEvent.setHostnameUts config.hostname]
  if config.hostname ≠ "" ∧ cenv.sethostnameOk = false then
    (t1 ++ utsTrace, some 1)
  else
    let t2 := t1 ++ utsTrace
    if config.rootfs ≠ "" ∧ cenv.pivotResult ≠ MC_OK then
      (t2 ++ [NsEvent.pivotRootCall], some 1)
    else
      let mountTrace :=
        if config.rootfs = "" then []
        else [NsEvent.pivotRootCall, NsEvent.mountEssentialsCall]
      let t3 := t2 ++ mountTrace ++ [NsEvent.clearEnvCall]
      match config.cmd with
      | c0 :: _ =>
        (t3 ++ [NsEvent.execCall c0], if cenv.execOk then none else some 127)
      | [] =>
        (t3 ++ [NsEvent.execCall "/bin/sh"],
          if cenv.execOk then none else some 127)

/-- namespace.c lines 117-174, `container_child`: the child's first two
actions are closing its write end of the sync pipe and the blocking
one-byte read; a failed read exits with code 1, and everything else is
downstream of the read (`child_after_read`). -/
def container_child (config : ContainerConfig) (cenv : ChildEnv) :
    List NsEvent × Option Nat :=
  let pre := [NsEvent.childCloseWriteEnd, NsEvent.childReadSyncPipe]
  if cenv.readOk = false then (pre, some 1)
  else
    (pre ++ (child_after_read config cenv).1, (child_after_read config cenv).2)

structure UserNsEnv where
  setgroupsOk : Bool
  uidMapOk : Bool
  gidMapOk : Bool
deriving DecidableEq, Repr

/-- namespace.c lines 72-106, `ns_setup_user`: the `setgroups` write
failure is a warning; a failed `uid_map` or `gid_map` write aborts with
the `write_file` error. -/
def ns_setup_user (uenv : UserNsEnv) : List NsEvent × Int :=
  let t1 := [NsEvent.writeSetgroupsDeny, NsEvent.writeUidMap]
  if uenv.uidMapOk = false then (t1, MC_ERR_IO)
  else
    let t2 := t1 ++ [NsEvent.writeGidMap]
    if uenv.gidMapOk = false then (t2, MC_ERR_IO)
    else (t2, MC_OK)

structure ParentEnv where
  pipeOk : Bool
  stackOk : Bool
  clonePid : Int
deriving DecidableEq, Repr

/-- namespace.c lines 180-238, `ns_create`: returns the parent-side trace
and the child PID on success (a negative `mc_error_t` on failure). -/
def ns_create (config : ContainerConfig) (penv : ParentEnv)
    (uenv : UserNsEnv) : List NsEvent × Int :=
  if penv.pipeOk = false then ([], MC_ERR_IO)
  else if penv.stackOk = false then
    ([NsEvent.parentCreatePipe], MC_ERR_MEMORY)
  else if penv.clonePid < 0 then
    ([NsEvent.parentCreatePipe, NsEvent.parentAllocStack, NsEvent.parentClone],
      MC_ERR_NAMESPACE)
  else
    let t := [NsEvent.parentCreatePipe, NsEvent.parentAllocStack,
              NsEvent.parentClone]
    if config.enable_user_ns then
      let u := ns_setup_user uenv
      if u.2 ≠ MC_OK then (t ++ u.1 ++ [NsEvent.parentKillChild], u.2)
      else
        (t ++ u.1 ++ [NsEvent.parentCloseReadEnd, NsEvent.writeReleaseByte,
                      NsEvent.parentCloseWriteEnd], penv.clonePid)
    else
      (t ++ [NsEvent.parentCloseReadEnd, NsEvent.writeReleaseByte,
             NsEvent.parentCloseWriteEnd], penv.clonePid)

/-! ## Lifecycle manager: start (container.c, `container_start`) -/

/-- container.c lines 93-107, `container_start`: only `CONTAINER_RUNNING`
is rejected; any other state proceeds to `ns_create`.  The trace is the
parent-side namespace trace ; `now` stands for `time(NULL)`. -/
def container_start (c : Container) (penv : ParentEnv) (uenv : UserNsEnv)
    (now : Int) : Container × Int × List NsEvent :=
  if c.state = ContainerState.running then (c, MC_ERR_INVALID, [])
  else
    let r := ns_create c.config penv uenv
    if r.2 < 0 then (c, r.2, r.1)
    else
      ({c with pid := r.2, state := ContainerState.running, started_at := now},
        MC_OK, r.1)

/-! ## Lifecycle manager: stop (container.c, `container_stop`) -/

structure StopEnv where
  /-- `waitpidNohang i = some status` when the `waitpid(pid, WNOHANG)` call
  of loop iteration `i` returns a positive pid with raw status `status`;
  `none` when it returns 0 (child not yet exited). -/
  waitpidNohang : Nat → Option Int
  /-- Raw status stored by the final blocking `waitpid` after `SIGKILL`. -/
  blockingWaitStatus : Int
  now : Int

inductive StopEvent where
  | sigterm
  | pollWaitpid (i : Nat)
  | sleep100ms
  | sigkill
  | blockingWaitpid
  | saveState
deriving DecidableEq, Repr

/-- The polling loop of container.c lines 113-121: iteration `i`, with
`fuel` iterations remaining; returns the updated record, the trace, and
whether the child was reaped inside the loop. -/
def stop_poll (c : Container) (senv : StopEnv) :
    Nat → Nat → Container × List StopEvent × Bool
  | _, 0 => (c, [], false)
  | i, fuel + 1 =>
    match senv.waitpidNohang i with
    | some st =>
      ({c with exit_code := st, state := ContainerState.stopped,
               stopped_at := senv.now},
        [StopEvent.pollWaitpid i, StopEvent.saveState], true)
    | none =>
      let r := stop_poll c senv (i + 1) fuel
      (r.1, StopEvent.pollWaitpid i :: StopEvent.sleep100ms :: r.2.1, r.2.2)

/-- container.c lines 109-128, `container_stop`.  The loop bound of line
113, `i < timeout * 10`, is computed on C `int`, so the product is the
32-bit wrapped value `toInt32 (timeout * 10)`; a non-positive bound means
zero poll iterations. -/
def container_stop (c : Container) (timeout : Int) (senv : StopEnv) :
    Container × Int × List StopEvent :=
  if c.state ≠ ContainerState.running then (c, MC_OK, [])
  else
    let r := stop_poll c senv 0 (toInt32 (timeout * 10)).toNat
    if r.2.2 then (r.1, MC_OK, StopEvent.sigterm :: r.2.1)
    else
      let c2 := {r.1 with exit_code := senv.blockingWaitStatus,
                          state := ContainerState.stopped,
                          stopped_at := senv.now}
      (c2, MC_OK,
        StopEvent.sigterm :: r.2.1 ++
          [StopEvent.sigkill, StopEvent.blockingWaitpid, StopEvent.saveState])

/-! ## Cgroup controller: init (cgroup.c, `cgroup_init`) -/

structure CgroupEnv where
  /-- `stat("/sys/fs/cgroup/cgroup.controllers")` succeeds. -/
  v2Available : Bool
  /-- `mkdir` of `/sys/fs/cgroup/kernelsight` succeeds or `EEXIST`. -/
  mkdirBaseOk : Bool
  /-- `mkdir` of the per-container leaf succeeds or `EEXIST`. -/
  mkdirLeafOk : Bool
deriving DecidableEq, Repr

/-- cgroup.c lines 128-151, `cgroup_init`: sets `cgroup_path` before the
leaf `mkdir`; `subtree_control` write failures are warnings inside
`cgroup_create_hierarchy` and do not affect the result. -/
def cgroup_init (c : Container) (genv : CgroupEnv) : Container × Int :=
  if genv.v2Available = false then (c, MC_ERR_CGROUP)
  else if genv.mkdirBaseOk = false then (c, MC_ERR_CGROUP)
  else
    let c1 := {c with cgroup_path := "/sys/fs/cgroup/kernelsight/" ++ c.config.id}
    if genv.mkdirLeafOk = false then (c1, MC_ERR_CGROUP)
    else (c1, MC_OK)

/-! ## Lifecycle manager: create (container.c, `container_create`) -/

/-- container.c lines 42-48, `generate_container_id`: 12 iterations of
`sprintf(id + i, "%x", rand() % 16)`; `rand` gives the successive
`rand()` results. -/
def hexDigitChar (n : Nat) : Char :=
  if n < 10 then Char.ofNat (48 + n) else Char.ofNat (87 + n)

def generate_container_id (rand : Nat → Nat) : String :=
  ⟨(List.range 12).map fun i => hexDigitChar (rand i % 16)⟩

def isLowerHexDigit (c : Char) : Bool :=
  (48 ≤ c.toNat ∧ c.toNat ≤ 57) ∨ (97 ≤ c.toNat ∧ c.toNat ≤ 102)

inductive CreateEvent where
  | mkdirStateDir (path : String)
  | logWarnCgroupInit
  | logWarnApplyLimits
  | applyLimits (writes : List CgroupWrite)
  | saveState (id name : String) (state : ContainerState) (pid : Int)
deriving DecidableEq, Repr

/-- container.c lines 71-73: the three defaulting steps of
`container_create` — a fresh id when empty, `name` defaulting to `id`,
`hostname` defaulting to `name`. -/
def applyConfigDefaults (config : ContainerConfig) (rand : Nat → Nat) :
    ContainerConfig :=
  let cfg1 := if config.id = "" then
                {config with id := generate_container_id rand}
              else config
  let cfg2 := if cfg1.name = "" then {cfg1 with name := cfg1.id} else cfg1
  if cfg2.hostname = "" then {cfg2 with hostname := cfg2.name} else cfg2

/-- container.c lines 65-91, `container_create`.  Defaults: a fresh id when
`config.id` is empty, `name` defaults to `id`, `hostname` to `name`.
`cgroup_init` failure is logged at WARN and creation continues
(`cgroup_apply_limits` always returns `MC_OK`, so its warning branch is
dead); `save_container_state`'s result is ignored. -/
def container_create (config : ContainerConfig) (rand : Nat → Nat)
    (genv : CgroupEnv) (now : Int) : Container × Int × List CreateEvent :=
  let cfg3 := applyConfigDefaults config rand
  let sdir := "/var/lib/minicontainer/containers/" ++ cfg3.id
  let c0 : Container :=
    { config := cfg3, state := ContainerState.created, pid := 0,
      exit_code := 0, cgroup_path := "", state_dir := sdir,
      created_at := now, started_at := 0, stopped_at := 0 }
  let r := cgroup_init c0 genv
  let warnTrace := if r.2 ≠ MC_OK then [CreateEvent.logWarnCgroupInit] else []
  let c1 := r.1
  (c1, MC_OK,
    [CreateEvent.mkdirStateDir sdir] ++ warnTrace ++
    [CreateEvent.applyLimits (cgroup_apply_limits_writes cfg3.limits),
     CreateEvent.saveState cfg3.id cfg3.name ContainerState.created 0])

/-! ## C string-parsing helpers shared by metrics and list

`isCSpace` is C's `isspace`; `digitsAcc` is the digit-consuming loop of
`atol`/`atoi`/`%ld`, which stops at the first non-digit. -/

def isCSpace (c : Char) : Bool :=
  c = ' ' ∨ c = '\t' ∨ c = '\n' ∨ c = '\x0b' ∨ c = '\x0c' ∨ c = '\r'

def digitsAcc : List Char → Nat → Nat
  | c :: cs, acc =>
    if c.isDigit then digitsAcc cs (acc * 10 + (c.toNat - 48)) else acc
  | [], acc => acc

/-- C `atol`/`atoi`: skip whitespace, optional sign, then digits (0 when
no digit follows). -/
def atol (s : String) : Int :=
  let cs := s.data.dropWhile isCSpace
  match cs with
  | '-' :: rest => -(digitsAcc rest 0 : Int)
  | '+' :: rest => (digitsAcc rest 0 : Int)
  | _ => (digitsAcc cs 0 : Int)

/-- `sscanf` `%ld`/`%d`: skip whitespace, optional sign, then at least one
digit; `none` when the conversion fails. -/
def scanLong (cs : List Char) : Option Int :=
  let cs1 := cs.dropWhile isCSpace
  match cs1 with
  | '-' :: rest =>
    match rest with
    | c :: _ => if c.isDigit then some (-(digitsAcc rest 0 : Int)) else none
    | [] => none
  | '+' :: rest =>
    match rest with
    | c :: _ => if c.isDigit then some (digitsAcc rest 0 : Int) else none
    | [] => none
  | c :: _ => if c.isDigit then some (digitsAcc cs1 0 : Int) else none
  | [] => none

/-! ## Cgroup controller: metrics (cgroup.c, `cgroup_get_metrics`) -/

structure ContainerMetrics where
  memory_usage_bytes : Int
  memory_max_usage_bytes : Int
  memory_limit_bytes : Int
  cpu_usage_ns : Int
  pids_current : Int
  pids_limit : Int
deriving DecidableEq, Repr

/-- The contents the kernel interface files present to
`cgroup_get_metrics`; `none` models an unreadable file.  Strings are
as delivered by `read_cgroup_string`, i.e. with the trailing newline
already stripped; `memoryCurrent`, `memoryPeak`, `pidsCurrent` are the
`read_cgroup_value` results (`none` = open/parse failure, reported -1). -/
structure CgroupFiles where
  memoryCurrent : Option Int
  memoryPeak : Option Int
  memoryMaxStr : Option String
  cpuStatLines : Option (List String)
  pidsCurrent : Option Int
  pidsMaxStr : Option String
deriving DecidableEq, Repr

/-- cgroup.c line 275: `sscanf(buf, "usage_usec %ld", &value)`: the
literal must match, then whitespace is skipped and a long parsed. -/
def scan_usage_usec (cs : List Char) : Option Int :=
  if cs.take 10 = "usage_usec".data then scanLong (cs.drop 10) else none

/-- cgroup.c lines 245-297, `cgroup_get_metrics`.  The metrics struct is
`memset` to zero; each field is then overwritten from its file when that
file is readable.  Every `usage_usec` match overwrites `cpu_usage_ns`
with `value * 1000`, so the last matching line wins. -/
def cgroup_get_metrics (files : CgroupFiles) : ContainerMetrics × Int :=
  let m0 : ContainerMetrics := ⟨0, 0, 0, 0, 0, 0⟩
  let m1 := {m0 with memory_usage_bytes := files.memoryCurrent.getD (-1),
                     memory_max_usage_bytes := files.memoryPeak.getD (-1)}
  let m2 :=
    match files.memoryMaxStr with
    | some s =>
      {m1 with memory_limit_bytes := if s = "max" then -1 else atol s}
    | none => m1
  let m3 :=
    match files.cpuStatLines with
    | some lines =>
      {m2 with cpu_usage_ns :=
        lines.foldl (fun (acc : Int) (l : String) =>
          match scan_usage_usec l.data with
          | some v => v * 1000
          | none => acc) 0}
    | none => m2
  let m4 := {m3 with pids_current := files.pidsCurrent.getD (-1)}
  let m5 :=
    match files.pidsMaxStr with
    | some s => {m4 with pids_limit := if s = "max" then -1 else atol s}
    | none => m4
  (m5, MC_OK)

/-- The value of the last line of `cpu.stat` that matches
`usage_usec %ld`, if any (spec-side description of the fold). -/
def lastUsageUsec : List String → Option Int
  | [] => none
  | l :: ls =>
    match lastUsageUsec ls with
    | some v => some v
    | none => scan_usage_usec l.data

/-! ## Lifecycle manager: list (container.c, `container_list`) -/

/-- One entry of the containers directory: its name, and the lines of its
`state.txt` when that file can be opened. -/
structure DirEntry where
  name : String
  stateFile : Option (List String)
deriving DecidableEq, Repr

/-- `sscanf(line, "<key>=%<n>s", buf)`: the literal prefix must match,
then `%s` skips whitespace and reads at least one non-whitespace char
(at most `maxLen`). -/
def scanStringField (key : String) (maxLen : Nat) (line : List Char) :
    Option String :=
  if line.take key.length = key.data then
    let tok := (((line.drop key.length).dropWhile isCSpace).takeWhile
      (fun c => isCSpace c = false)).take maxLen
    if tok = [] then none else some ⟨tok⟩
  else none

/-- `sscanf(line, "pid=%d", &pid)`: the literal `pid=` must match, then a
decimal integer is parsed. -/
def scanPidField (line : List Char) : Option Int :=
  if line.take 4 = "pid=".data then scanLong (line.drop 4) else none

/-- The `calloc`-zeroed container record that `container_list` fills in. -/
def blankContainer : Container :=
  { config := { id := "", name := "", hostname := "", rootfs := "",
                cmd := [], env := [],
                limits := ⟨0, 0, 0, 0, 0, 0⟩,
                enable_network := false, enable_user_ns := false },
    state := ContainerState.created, pid := 0, exit_code := 0,
    cgroup_path := "", state_dir := "", created_at := 0, started_at := 0,
    stopped_at := 0 }

/-- container.c lines 174-184: the `if (sscanf(...)) continue;` chain
applied to one line of `state.txt`. -/
def parse_state_line (c : Container) (line : String) : Container :=
  match scanStringField "id=" 64 line.data with
  | some v => {c with config := {c.config with id := v}}
  | none =>
    match scanStringField "name=" 255 line.data with
    | some v => {c with config := {c.config with name := v}}
    | none =>
      match scanPidField line.data with
      | some v => {c with pid := v}
      | none =>
        match scanStringField "state=" 31 line.data with
        | some st =>
          {c with state :=
            if st = "running" then ContainerState.running
            else if st = "stopped" then ContainerState.stopped
            else ContainerState.created}
        | none => c

/-- container.c lines 163-191: one directory entry's contribution to the
list — skipped when its name starts with `.` or `state.txt` cannot be
opened. -/
def listEntry (e : DirEntry) : Option Container :=
  if e.name.data.head? = some '.' then none
  else
    match e.stateFile with
    | none => none
    | some lines =>
      let c := lines.foldl parse_state_line blankContainer
      some {c with
        state_dir := "/var/lib/minicontainer/containers/" ++ e.name,
        cgroup_path := "/sys/fs/cgroup/minicontainer/" ++ c.config.id}

/-- container.c lines 152-195, `container_list`: `dir = none` models
`opendir` failing, in which case the function stores count 0 and a NULL
list and still returns `MC_OK`. -/
def container_list (dir : Option (List DirEntry)) :
    Int × Nat × Option (List Container) :=
  match dir with
  | none => (MC_OK, 0, none)
  | some entries =>
    let cs := entries.filterMap listEntry
    (MC_OK, cs.length, some cs)

/-! ## Lifecycle manager: exec (container.c, `container_exec`) -/

/-- The wait status of the exec helper, as tested by `WIFEXITED` /
`WEXITSTATUS`. -/
inductive WaitStatus where
  | exited (code : Nat)
  | signaled (sig : Nat)
deriving DecidableEq, Repr

structure ExecEnv where
  /-- `kill(pid, 0)` returns 0 (process exists). -/
  killProbeOk : Bool
  /-- `fork()` result; negative is failure. -/
  forkResult : Int
  /-- The parent's `waitpid` on the helper succeeds. -/
  waitpidOk : Bool
  /-- The helper's wait status. -/
  status : WaitStatus
deriving DecidableEq, Repr

/-- container.c lines 201-285, `container_exec`: result code only.
`c = none` models a NULL container pointer; `cmd = []` models
`!cmd || cmd_count <= 0`. -/
def container_exec (c : Option Container) (cmd : List String)
    (xenv : ExecEnv) : Int :=
  match c with
  | none => MC_ERR_INVALID
  | some c =>
    if cmd = [] then MC_ERR_INVALID
    else if c.state ≠ ContainerState.running ∨ c.pid ≤ 0 then MC_ERR_PROCESS
    else if xenv.killProbeOk = false then MC_ERR_NOT_FOUND
    else if xenv.forkResult < 0 then MC_ERR_PROCESS
    else if xenv.waitpidOk = false then MC_ERR_PROCESS
    else
      match xenv.status with
      | WaitStatus.exited code => if code = 0 then MC_OK else MC_ERR_PROCESS
      | WaitStatus.signaled _ => MC_OK

/-! ## Spec-side trace descriptions for `container_stop` -/

/-- `n` unsuccessful poll iterations starting at index `i`: each
`waitpid(WNOHANG)` returning 0 is followed by `usleep(100000)` (the
10 Hz tick). -/
def pollTraceFrom (i : Nat) : Nat → List StopEvent
  | 0 => []
  | n + 1 =>
    StopEvent.pollWaitpid i :: StopEvent.sleep100ms :: pollTraceFrom (i + 1) n

/-- Trace of a stop in which the child never responds within the timeout:
SIGTERM, `n` failed polls, then SIGKILL, blocking wait, save. -/
def stopTraceUnresponsive (n : Nat) : List StopEvent :=
  StopEvent.sigterm :: pollTraceFrom 0 n ++
    [StopEvent.sigkill, StopEvent.blockingWaitpid, StopEvent.saveState]

/-- Trace of a stop whose poll number `k` reaps the child: SIGTERM, `k`
failed polls, the successful poll, save. -/
def stopTraceReapedAt (k : Nat) : List StopEvent :=
  StopEvent.sigterm :: pollTraceFrom 0 k ++
    [StopEvent.pollWaitpid k, StopEvent.saveState]

/-! ## Concrete inputs used by witnesses and counterexamples -/

def limitsZero : ResourceLimits := ⟨0, 0, 0, 0, 0, 0⟩

/-- A limits record whose `cpu_shares * 100` overflows a 32-bit int. -/
def limitsOverflowShares : ResourceLimits := ⟨0, 0, 21474837, 0, 0, 0⟩

/-- Docker's default shares value, well inside the 32-bit range. -/
def limitsDefaultShares : ResourceLimits := ⟨0, 0, 1024, 0, 0, 0⟩

/-- A fully populated limits record. -/
def limitsFull : ResourceLimits := ⟨67108864, 0, 512, 50000, 100000, 64⟩

/-- `limitsFull` with the cpu and pids axes zeroed. -/
def limitsMemOnly : ResourceLimits := ⟨67108864, 0, 0, 0, 0, 0⟩

def configW : ContainerConfig :=
  { id := "abc123abc123", name := "demo", hostname := "demo",
    rootfs := "/tmp/alpine", cmd := ["/bin/echo"], env := [],
    limits := limitsZero, enable_network := false, enable_user_ns := true }

def configNoUserNs : ContainerConfig := {configW with enable_user_ns := false}

def configEmptyIds : ContainerConfig :=
  {configW with id := "", name := "", hostname := ""}

/-- A record in state `paused` (C1's counterexample input). -/
def pausedContainer : Container :=
  { config := configNoUserNs, state := ContainerState.paused, pid := 0,
    exit_code := 0, cgroup_path := "", state_dir := "", created_at := 0,
    started_at := 0, stopped_at := 0 }

/-- A record in state `running` with a live pid. -/
def runningContainer : Container :=
  { pausedContainer with state := ContainerState.running, pid := 4321 }

/-- A record in state `stopped`. -/
def stoppedContainer : Container :=
  { pausedContainer with state := ContainerState.stopped }

def parentEnvW : ParentEnv := ⟨true, true, 1234⟩

def userNsEnvW : UserNsEnv := ⟨true, true, true⟩

def childEnvW : ChildEnv := ⟨true, true, MC_OK, true⟩

def fsEnvUmountFails : FsEnv := ⟨true, true, true, true, true, false⟩

def fsEnvNoRootfs : FsEnv := ⟨false, true, true, true, true, true⟩

/-- Stop environment: the child exits with raw status 9 at poll 2. -/
def stopEnvW : StopEnv :=
  { waitpidNohang := fun i => if i = 2 then some 9 else none,
    blockingWaitStatus := 137, now := 42 }

/-- Stop environment: the child never exits during polling. -/
def stopEnvDeaf : StopEnv :=
  { waitpidNohang := fun _ => none, blockingWaitStatus := 137, now := 42 }

def cgroupEnvUnavailable : CgroupEnv := ⟨false, true, true⟩

/-- A constant stand-in for the libc `rand()` stream. -/
def randW : Nat → Nat := fun i => 3 * i + 7

def cgroupFilesW : CgroupFiles :=
  { memoryCurrent := some 100, memoryPeak := some 200,
    memoryMaxStr := some "max",
    cpuStatLines := some ["usage_usec 250", "user_usec 90"],
    pidsCurrent := some 3, pidsMaxStr := some "max" }

def cgroupFilesNumeric : CgroupFiles :=
  { cgroupFilesW with memoryMaxStr := some "1048576" }

def execEnvSignaled : ExecEnv :=
  { killProbeOk := true, forkResult := 777, waitpidOk := true,
    status := WaitStatus.signaled 9 }

def execEnvExitedNonzero : ExecEnv :=
  { execEnvSignaled with status := WaitStatus.exited 3 }

/-! # Theorems -/

/-! ## Helper lemmas -/

theorem toInt32_eq_self {n : Int} (h0 : -2 ^ 31 ≤ n) (h1 : n < 2 ^ 31) :
    toInt32 n = n := by
  unfold toInt32
  have h : (n + 2 ^ 31) % 2 ^ 32 = n + 2 ^ 31 :=
    Int.emod_eq_of_lt (by omega) (by omega)
  omega

theorem cpuWeightOfShares_eq_spec {s : Int} (h0 : 0 < s)
    (h1 : s ≤ 21474836) : cpuWeightOfShares s = specCpuWeight s := by
  unfold cpuWeightOfShares specCpuWeight
  rw [toInt32_eq_self (by omega) (by omega)]
  have hd : 0 ≤ Int.tdiv (s * 100) 1024 := Int.tdiv_nonneg (by omega) (by omega)
  set w := Int.tdiv (s * 100) 1024 with hw
  simp only [min_def, max_def]
  split_ifs <;> omega

/-! ## C5 -/

/-- C5 (amended): for every limits record whose `cpu_shares` is positive
and small enough that `cpu_shares * 100` fits in a signed 32-bit int
(i.e. `cpu_shares ≤ 21474836`), `cgroup_apply_limits` issues exactly one
write to `cpu.weight`, whose value is `clamp((shares*100)/1024, 1, 10000)`
computed with truncating integer division. -/
theorem cpu_weight_write_eq_clamp (l : ResourceLimits)
    (h0 : 0 < l.cpu_shares) (h1 : l.cpu_shares ≤ 21474836) :
    (cgroup_apply_limits_writes l).filter CgroupWrite.isCpuWeight =
      [CgroupWrite.cpuWeight (specCpuWeight l.cpu_shares)] := by
  have hrw := cpuWeightOfShares_eq_spec h0 h1
  by_cases hm : l.memory_limit_bytes > 0 <;>
    by_cases hsw : l.memory_swap_bytes ≥ 0 <;>
    by_cases hq : l.cpu_quota_us > 0 <;>
    by_cases hp : l.pids_max > 0 <;>
    simp [cgroup_apply_limits_writes, hm, hsw, hq, hp, h0, hrw,
      CgroupWrite.isCpuWeight]

/-- C5 witness: Docker's default `cpu_shares = 1024` maps to
`cpu.weight = 100`. -/
theorem cpu_weight_write_eq_clamp_witness :
    (0 : Int) < 1024 ∧
      (cgroup_apply_limits_writes limitsDefaultShares).filter
        CgroupWrite.isCpuWeight = [CgroupWrite.cpuWeight 100] := by
  constructor
  · decide
  · have h := cpu_weight_write_eq_clamp limitsDefaultShares (by decide) (by decide)
    rw [h]; decide

/-- C5 counterexample: at `cpu_shares = 21474837` the 32-bit product
`cpu_shares * 100` overflows; the code writes `cpu.weight = 1` while the
claimed formula `clamp((s*100)/1024, 1, 10000)` gives 10000. -/
theorem cpu_weight_overflow_counterexample :
    (cgroup_apply_limits_writes limitsOverflowShares).filter
        CgroupWrite.isCpuWeight = [CgroupWrite.cpuWeight 1] ∧
      specCpuWeight limitsOverflowShares.cpu_shares = 10000 ∧
      (1 : Int) ≠ 10000 := by
  refine ⟨?_, ?_, ?_⟩ <;> decide

/-! ## C6 -/

/-- C6: zero `cpu_shares` and `cpu_quota_us` suppress every write to
`cpu.max` and `cpu.weight`; zero `pids_max` suppresses the `pids.max`
write; and the writes to the memory files depend only on the memory
fields, so they are unaffected by the cpu/pids axes. -/
theorem zero_axes_no_writes :
    (∀ l : ResourceLimits, l.cpu_shares = 0 → l.cpu_quota_us = 0 →
      (cgroup_apply_limits_writes l).filter CgroupWrite.isCpu = []) ∧
    (∀ l : ResourceLimits, l.pids_max = 0 →
      (cgroup_apply_limits_writes l).filter CgroupWrite.isPidsMax = []) ∧
    (∀ l1 l2 : ResourceLimits,
      l1.memory_limit_bytes = l2.memory_limit_bytes →
      l1.memory_swap_bytes = l2.memory_swap_bytes →
      (cgroup_apply_limits_writes l1).filter CgroupWrite.isMemory =
        (cgroup_apply_limits_writes l2).filter CgroupWrite.isMemory) := by
  refine ⟨?_, ?_, ?_⟩
  · intro l hs hq
    by_cases hm : l.memory_limit_bytes > 0 <;>
      by_cases hsw : l.memory_swap_bytes ≥ 0 <;>
      by_cases hp : l.pids_max > 0 <;>
      simp [cgroup_apply_limits_writes, hm, hsw, hp, hs, hq, CgroupWrite.isCpu]
  · intro l hp
    by_cases hm : l.memory_limit_bytes > 0 <;>
      by_cases hsw : l.memory_swap_bytes ≥ 0 <;>
      by_cases hq : l.cpu_quota_us > 0 <;>
      by_cases hcs : l.cpu_shares > 0 <;>
      simp [cgroup_apply_limits_writes, hm, hsw, hq, hcs, hp,
        CgroupWrite.isPidsMax]
  · intro l1 l2 hm hsw
    by_cases h1 : l1.memory_limit_bytes > 0 <;>
      by_cases h2 : l1.memory_swap_bytes ≥ 0 <;>
      by_cases hq1 : l1.cpu_quota_us > 0 <;>
      by_cases hcs1 : l1.cpu_shares > 0 <;>
      by_cases hp1 : l1.pids_max > 0 <;>
      by_cases hq2 : l2.cpu_quota_us > 0 <;>
      by_cases hcs2 : l2.cpu_shares > 0 <;>
      by_cases hp2 : l2.pids_max > 0 <;>
      simp [cgroup_apply_limits_writes, ← hm, ← hsw, h1, h2, hq1, hcs1, hp1,
        hq2, hcs2, hp2, CgroupWrite.isMemory]

/-- C6 witness: with only the memory axis set, no cpu or pids file is
written; and the full record and its memory-only restriction issue the
same memory writes. -/
theorem zero_axes_no_writes_witness :
    (cgroup_apply_limits_writes limitsMemOnly).filter CgroupWrite.isCpu = [] ∧
    (cgroup_apply_limits_writes limitsMemOnly).filter CgroupWrite.isPidsMax = [] ∧
    (cgroup_apply_limits_writes limitsFull).filter CgroupWrite.isMemory =
      (cgroup_apply_limits_writes limitsMemOnly).filter CgroupWrite.isMemory :=
  ⟨zero_axes_no_writes.1 limitsMemOnly rfl rfl,
   zero_axes_no_writes.2.1 limitsMemOnly rfl,
   zero_axes_no_writes.2.2 limitsFull limitsMemOnly rfl rfl⟩

/-! ## C4 -/

/-- C4: `fs_pivot_root` fails with a filesystem error when the rootfs is
NULL, missing or not a directory (before touching the mount table); and
when the private remount, the bind mount and the `pivot_root` syscall
succeed it performs exactly the seven steps in order — private remount,
recursive self bind-mount, `mkdir .old_root` with mode 0700, the
`pivot_root` syscall, `chdir("/")`, detach-unmount of `/.old_root` and
its removal — and returns `MC_OK` even when the final unmount fails
(no hypothesis constrains `umountOldRootOk` or `chdirOk`). -/
theorem pivot_root_steps :
    (∀ fenv : FsEnv, fs_pivot_root none fenv = (MC_ERR_FILESYSTEM, [])) ∧
    (∀ (r : String) (fenv : FsEnv), fenv.rootfsExistsDir = false →
      fs_pivot_root (some r) fenv = (MC_ERR_FILESYSTEM, [])) ∧
    (∀ (r : String) (fenv : FsEnv), fenv.rootfsExistsDir = true →
      fenv.mountPrivateOk = true → fenv.bindMountOk = true →
      fenv.pivotOk = true →
      fs_pivot_root (some r) fenv =
        (MC_OK,
          [FsEvent.mountPrivateRec, FsEvent.bindMountRootfs,
           FsEvent.mkdirOldRoot 0o700, FsEvent.pivotRootSyscall,
           FsEvent.chdirRoot, FsEvent.umountDetachOldRoot,
           FsEvent.rmdirOldRoot])) := by
  refine ⟨?_, ?_, ?_⟩
  · intro fenv
    simp [fs_pivot_root]
  · intro r fenv h
    simp [fs_pivot_root, h]
  · intro r fenv h1 h2 h3 h4
    simp [fs_pivot_root, h1, h2, h3, h4]

/-- C4 witness: a present rootfs with every mount step succeeding except
the final detach-unmount still yields `MC_OK` with the full step list,
and a missing rootfs yields the filesystem error. -/
theorem pivot_root_steps_witness :
    fs_pivot_root (some "/tmp/alpine") fsEnvUmountFails =
      (MC_OK,
        [FsEvent.mountPrivateRec, FsEvent.bindMountRootfs,
         FsEvent.mkdirOldRoot 0o700, FsEvent.pivotRootSyscall,
         FsEvent.chdirRoot, FsEvent.umountDetachOldRoot,
         FsEvent.rmdirOldRoot]) ∧
    fs_pivot_root (some "/missing") fsEnvNoRootfs = (MC_ERR_FILESYSTEM, []) :=
  ⟨pivot_root_steps.2.2 "/tmp/alpine" fsEnvUmountFails rfl rfl rfl rfl,
   pivot_root_steps.2.1 "/missing" fsEnvNoRootfs rfl⟩

/-! ## C1 -/

/-- C1 counterexample: `container_start` on a record in state `paused`
does not return an error — it proceeds to `ns_create` (the clone appears
in the trace) and returns `MC_OK`. -/
theorem start_paused_counterexample :
    pausedContainer.state = ContainerState.paused ∧
    (container_start pausedContainer parentEnvW userNsEnvW 7).2.1 = MC_OK ∧
    NsEvent.parentClone ∈
      (container_start pausedContainer parentEnvW userNsEnvW 7).2.2 := by
  refine ⟨rfl, ?_, ?_⟩ <;> decide

/-- C1 (amended): `container_start` rejects with `MC_ERR_INVALID` exactly
when the record's state is `running`; in every other state — `created`
and `stopped`, but also `paused` and `deleted` — it calls `ns_create`
(so a child is spawned), and on a non-negative pid returns `MC_OK` with
the record marked running. -/
theorem start_rejects_only_running (c : Container) (penv : ParentEnv)
    (uenv : UserNsEnv) (now : Int) :
    (c.state = ContainerState.running →
      container_start c penv uenv now = (c, MC_ERR_INVALID, [])) ∧
    (c.state ≠ ContainerState.running →
      (container_start c penv uenv now).2.2 = (ns_create c.config penv uenv).1 ∧
      (0 ≤ (ns_create c.config penv uenv).2 →
        (container_start c penv uenv now).2.1 = MC_OK ∧
        (container_start c penv uenv now).1.state = ContainerState.running)) := by
  constructor
  · intro h
    simp [container_start, h]
  · intro h
    constructor
    · by_cases hp : (ns_create c.config penv uenv).2 < 0 <;>
        simp [container_start, h, hp]
    · intro hpid
      have hp : ¬(ns_create c.config penv uenv).2 < 0 := by omega
      simp [container_start, h, hp]

/-- C1 witness: a running record is rejected, and a stopped record with a
successful clone starts and becomes running. -/
theorem start_rejects_only_running_witness :
    container_start runningContainer parentEnvW userNsEnvW 7 =
      (runningContainer, MC_ERR_INVALID, []) ∧
    (container_start stoppedContainer parentEnvW userNsEnvW 7).2.1 = MC_OK ∧
    (container_start stoppedContainer parentEnvW userNsEnvW 7).1.state =
      ContainerState.running :=
  ⟨(start_rejects_only_running runningContainer parentEnvW userNsEnvW 7).1 rfl,
   ((start_rejects_only_running stoppedContainer parentEnvW userNsEnvW 7).2
      (by decide)).2 (by decide)⟩

/-! ## C2 -/

/-- C2: (i) the child's trace always begins by closing its write end and
blocking on the one-byte read, so no UTS or mount work precedes the read;
(ii) a failed read exits with code 1 before any other action; (iii) when
user namespaces are enabled and the map writes succeed, the parent's trace
is exactly pipe, stack, clone, `setgroups` deny, `uid_map`, `gid_map`,
close read end, release byte, close write end — the maps strictly precede
the release byte; (iv) if a map write fails the release byte is never
written. -/
theorem sync_pipe_handshake :
    (∀ (cfg : ContainerConfig) (cenv : ChildEnv), ∃ rest,
      (container_child cfg cenv).1 =
        NsEvent.childCloseWriteEnd :: NsEvent.childReadSyncPipe :: rest ∧
        NsEvent.isUtsOrMountWork NsEvent.childCloseWriteEnd = false) ∧
    (∀ (cfg : ContainerConfig) (cenv : ChildEnv), cenv.readOk = false →
      container_child cfg cenv =
        ([NsEvent.childCloseWriteEnd, NsEvent.childReadSyncPipe], some 1)) ∧
    (∀ (cfg : ContainerConfig) (penv : ParentEnv) (uenv : UserNsEnv),
      cfg.enable_user_ns = true → penv.pipeOk = true → penv.stackOk = true →
      0 ≤ penv.clonePid → uenv.uidMapOk = true → uenv.gidMapOk = true →
      ns_create cfg penv uenv =
        ([NsEvent.parentCreatePipe, NsEvent.parentAllocStack,
          NsEvent.parentClone, NsEvent.writeSetgroupsDeny,
          NsEvent.writeUidMap, NsEvent.writeGidMap,
          NsEvent.parentCloseReadEnd, NsEvent.writeReleaseByte,
          NsEvent.parentCloseWriteEnd], penv.clonePid)) ∧
    (∀ (cfg : ContainerConfig) (penv : ParentEnv) (uenv : UserNsEnv),
      cfg.enable_user_ns = true →
      uenv.uidMapOk = false ∨ uenv.gidMapOk = false →
      NsEvent.writeReleaseByte ∉ (ns_create cfg penv uenv).1) := by
  refine ⟨?_, ?_, ?_, ?_⟩
  · intro cfg cenv
    by_cases h : cenv.readOk = false
    · exact ⟨[], by simp [container_child, h], rfl⟩
    · exact ⟨(child_after_read cfg cenv).1, by simp [container_child, h], rfl⟩
  · intro cfg cenv h
    simp [container_child, h]
  · intro cfg penv uenv hu hpipe hstack hpid huid hgid
    have hp : ¬penv.clonePid < 0 := by omega
    simp [ns_create, ns_setup_user, hu, hpipe, hstack, hp, huid, hgid]
  · intro cfg penv uenv hu hfail
    by_cases hpipe : penv.pipeOk = true
    · by_cases hstack : penv.stackOk = true
      · by_cases hp : penv.clonePid < 0
        · simp [ns_create, hpipe, hstack, hp]
        · rcases hfail with huid | hgid
          · simp [ns_create, ns_setup_user, hu, hpipe, hstack, hp, huid,
              MC_ERR_IO, MC_OK]
          · by_cases huid : uenv.uidMapOk = true
            · simp [ns_create, ns_setup_user, hu, hpipe, hstack, hp, huid,
                hgid, MC_ERR_IO, MC_OK]
            · simp [ns_create, ns_setup_user, hu, hpipe, hstack, hp,
                eq_false_of_ne_true huid, MC_ERR_IO, MC_OK]
      · simp [ns_create, eq_false_of_ne_true hstack, hpipe]
    · simp [ns_create, eq_false_of_ne_true hpipe]

/-- C2 witness: with user namespaces enabled and all writes succeeding,
the parent trace places the map writes strictly before the release byte,
and the child trace starts with the blocking read. -/
theorem sync_pipe_handshake_witness :
    ns_create configW parentEnvW userNsEnvW =
      ([NsEvent.parentCreatePipe, NsEvent.parentAllocStack,
        NsEvent.parentClone, NsEvent.writeSetgroupsDeny,
        NsEvent.writeUidMap, NsEvent.writeGidMap,
        NsEvent.parentCloseReadEnd, NsEvent.writeReleaseByte,
        NsEvent.parentCloseWriteEnd], 1234) ∧
    container_child configW { childEnvW with readOk := false } =
      ([NsEvent.childCloseWriteEnd, NsEvent.childReadSyncPipe], some 1) :=
  ⟨sync_pipe_handshake.2.2.1 configW parentEnvW userNsEnvW rfl rfl rfl
      (by decide) rfl rfl,
   sync_pipe_handshake.2.1 configW { childEnvW with readOk := false } rfl⟩

/-! ## C3 -/

theorem stop_poll_of_all_none (senv : StopEnv) :
    ∀ (fuel i : Nat) (c : Container),
      (∀ j, j < fuel → senv.waitpidNohang (i + j) = none) →
      stop_poll c senv i fuel = (c, pollTraceFrom i fuel, false) := by
  intro fuel
  induction fuel with
  | zero =>
    intro i c _
    rfl
  | succ n ih =>
    intro i c h
    have h0 : senv.waitpidNohang i = none := by simpa using h 0 (by omega)
    have hrec := ih (i + 1) c (fun j hj => by
      have := h (j + 1) (by omega)
      rwa [show i + (j + 1) = i + 1 + j by omega] at this)
    simp [stop_poll, h0, pollTraceFrom, hrec]

theorem stop_poll_of_first_some (senv : StopEnv) :
    ∀ (fuel i k : Nat) (c : Container) (st : Int),
      k < fuel →
      (∀ j, j < k → senv.waitpidNohang (i + j) = none) →
      senv.waitpidNohang (i + k) = some st →
      stop_poll c senv i fuel =
        ({c with exit_code := st, state := ContainerState.stopped,
                 stopped_at := senv.now},
          pollTraceFrom i k ++
            [StopEvent.pollWaitpid (i + k), StopEvent.saveState],
          true) := by
  intro fuel
  induction fuel with
  | zero =>
    intro i k c st hk
    omega
  | succ n ih =>
    intro i k c st hk hnone hsome
    cases k with
    | zero =>
      have h0 : senv.waitpidNohang i = some st := by simpa using hsome
      simp [stop_poll, h0, pollTraceFrom]
    | succ m =>
      have h0 : senv.waitpidNohang i = none := by simpa using hnone 0 (by omega)
      have hrec := ih (i + 1) m c st (by omega)
        (fun j hj => by
          have := hnone (j + 1) (by omega)
          rwa [show i + (j + 1) = i + 1 + j by omega] at this)
        (by rwa [show i + (m + 1) = i + 1 + m by omega] at hsome)
      simp [stop_poll, h0, pollTraceFrom, hrec,
        show i + 1 + m = i + (m + 1) by omega]

theorem stop_poll_fst_of_false (senv : StopEnv) :
    ∀ (fuel i : Nat) (c : Container),
      (stop_poll c senv i fuel).2.2 = false →
      (stop_poll c senv i fuel).1 = c := by
  intro fuel
  induction fuel with
  | zero => intro i c _; rfl
  | succ n ih =>
    intro i c h
    cases h0 : senv.waitpidNohang i with
    | none =>
      have h' := h
      simp only [stop_poll, h0] at h' ⊢
      exact ih (i + 1) c h'
    | some st => simp [stop_poll, h0] at h

theorem stop_poll_fst_of_true (senv : StopEnv) :
    ∀ (fuel i : Nat) (c : Container),
      (stop_poll c senv i fuel).2.2 = true →
      ∃ st, (stop_poll c senv i fuel).1 =
        {c with exit_code := st, state := ContainerState.stopped,
                stopped_at := senv.now} := by
  intro fuel
  induction fuel with
  | zero => intro i c h; simp [stop_poll] at h
  | succ n ih =>
    intro i c h
    cases h0 : senv.waitpidNohang i with
    | none =>
      have h' := h
      simp only [stop_poll, h0] at h' ⊢
      exact ih (i + 1) c h'
    | some st =>
      refine ⟨st, ?_⟩
      simp [stop_poll, h0]

/-- C3 (amended): `container_stop` always returns `MC_OK`; on a record
that is not running it is a pure no-op (so double-stop succeeds); on a
running record it ends in state `stopped` with `stopped_at` recorded.
The poll budget is the C `int` product `timeout * 10`, so for every
timeout with `-2^31 ≤ timeout*10 < 2^31` the trace is SIGTERM followed by
up to `timeout*10` polls (each `waitpid(WNOHANG)` followed by a 100 ms
sleep — 10 Hz) and then SIGKILL plus a blocking wait when the child never
responds, or by the successful poll when poll `k` reaps the child,
recording that poll's exit status; for larger timeouts the 32-bit product
wraps and the poll count is the wrapped value instead. -/
theorem stop_contract :
    (∀ (c : Container) (t : Int) (senv : StopEnv),
      (container_stop c t senv).2.1 = MC_OK) ∧
    (∀ (c : Container) (t : Int) (senv : StopEnv),
      c.state ≠ ContainerState.running →
      container_stop c t senv = (c, MC_OK, [])) ∧
    (∀ (c : Container) (t : Int) (senv : StopEnv),
      c.state = ContainerState.running →
      (container_stop c t senv).1.state = ContainerState.stopped ∧
      (container_stop c t senv).1.stopped_at = senv.now) ∧
    (∀ (c : Container) (t : Int) (senv : StopEnv),
      c.state = ContainerState.running →
      -2 ^ 31 ≤ t * 10 → t * 10 < 2 ^ 31 →
      (∀ i, i < (t * 10).toNat → senv.waitpidNohang i = none) →
      container_stop c t senv =
        ({c with exit_code := senv.blockingWaitStatus,
                 state := ContainerState.stopped, stopped_at := senv.now},
          MC_OK, stopTraceUnresponsive (t * 10).toNat)) ∧
    (∀ (c : Container) (t : Int) (senv : StopEnv) (k : Nat) (st : Int),
      c.state = ContainerState.running →
      -2 ^ 31 ≤ t * 10 → t * 10 < 2 ^ 31 →
      k < (t * 10).toNat →
      (∀ i, i < k → senv.waitpidNohang i = none) →
      senv.waitpidNohang k = some st →
      container_stop c t senv =
        ({c with exit_code := st, state := ContainerState.stopped,
                 stopped_at := senv.now},
          MC_OK, stopTraceReapedAt k)) := by
  refine ⟨?_, ?_, ?_, ?_, ?_⟩
  · intro c t senv
    by_cases h : c.state = ContainerState.running
    · cases hb : (stop_poll c senv 0 (toInt32 (t * 10)).toNat).2.2 <;>
        simp [container_stop, h, hb]
    · simp [container_stop, h]
  · intro c t senv h
    simp [container_stop, h]
  · intro c t senv h
    cases hb : (stop_poll c senv 0 (toInt32 (t * 10)).toNat).2.2 with
    | false =>
      simp [container_stop, h, hb]
    | true =>
      obtain ⟨st, hc⟩ :=
        stop_poll_fst_of_true senv (toInt32 (t * 10)).toNat 0 c hb
      simp [container_stop, h, hb, hc]
  · intro c t senv h hlo hhi hnone
    have h32 : toInt32 (t * 10) = t * 10 := toInt32_eq_self hlo hhi
    have hloop := stop_poll_of_all_none senv (t * 10).toNat 0 c
      (fun j hj => by simpa using hnone j hj)
    simp [container_stop, h, h32, hloop, stopTraceUnresponsive]
  · intro c t senv k st h hlo hhi hk hnone hsome
    have h32 : toInt32 (t * 10) = t * 10 := toInt32_eq_self hlo hhi
    have hloop := stop_poll_of_first_some senv (t * 10).toNat 0 k c st hk
      (fun j hj => by simpa using hnone j hj) (by simpa using hsome)
    simp [container_stop, h, h32, hloop, stopTraceReapedAt]

/-- C3 counterexample: at `timeout = 214748365` (a representable C
`int`), the claimed poll budget `timeout*10 = 2147483650` exceeds
`INT_MAX`, the 32-bit product wraps negative and the code performs zero
polls, sending SIGKILL immediately — not polling for up to `timeout`
seconds as claimed for every timeout. -/
theorem stop_timeout_overflow_counterexample :
    container_stop runningContainer 214748365 stopEnvDeaf =
      ({runningContainer with
          exit_code := 137, state := ContainerState.stopped,
          stopped_at := 42},
        MC_OK, [StopEvent.sigterm, StopEvent.sigkill,
                StopEvent.blockingWaitpid, StopEvent.saveState]) ∧
    StopEvent.pollWaitpid 0 ∉
      (container_stop runningContainer 214748365 stopEnvDeaf).2.2 ∧
    ((214748365 : Int) * 10).toNat = 2147483650 := by
  refine ⟨?_, ?_, ?_⟩ <;> decide

/-- C3 witness: stopping a running record whose child exits at poll 2
records status 9 and the reaped trace; stopping an already-stopped record
is a no-op returning success. -/
theorem stop_contract_witness :
    container_stop runningContainer 1 stopEnvW =
      ({runningContainer with
          exit_code := 9, state := ContainerState.stopped, stopped_at := 42},
        MC_OK, stopTraceReapedAt 2) ∧
    container_stop stoppedContainer 5 stopEnvW =
      (stoppedContainer, MC_OK, []) := by
  constructor
  · have h := stop_contract.2.2.2.2 runningContainer 1 stopEnvW 2 9 rfl
      (by decide) (by decide) (by decide)
      (by
        intro i hi
        simp only [stopEnvW]
        rw [if_neg (by omega)])
      (by decide)
    simpa using h
  · exact stop_contract.2.1 stoppedContainer 5 stopEnvW (by decide)

/-! ## C7 -/

theorem hexDigitChar_lower_hex : ∀ m : Fin 16,
    isLowerHexDigit (hexDigitChar m.val) = true := by decide

theorem generate_id_length (rand : Nat → Nat) :
    (generate_container_id rand).length = 12 := by
  simp [generate_container_id, String.length]

theorem generate_id_hex (rand : Nat → Nat) :
    ∀ ch ∈ (generate_container_id rand).data, isLowerHexDigit ch = true := by
  intro ch hch
  simp only [generate_container_id, List.mem_map, List.mem_range] at hch
  obtain ⟨i, _, rfl⟩ := hch
  exact hexDigitChar_lower_hex ⟨rand i % 16, Nat.mod_lt _ (by norm_num)⟩

theorem cgroup_init_preserves (c : Container) (genv : CgroupEnv) :
    (cgroup_init c genv).1.config = c.config ∧
    (cgroup_init c genv).1.state = c.state := by
  by_cases hv : genv.v2Available = true <;>
    by_cases hb : genv.mkdirBaseOk = true <;>
    by_cases hl : genv.mkdirLeafOk = true <;>
    simp_all [cgroup_init]

theorem container_create_config (config : ContainerConfig) (rand : Nat → Nat)
    (genv : CgroupEnv) (now : Int) :
    (container_create config rand genv now).1.config =
      applyConfigDefaults config rand := by
  simp only [container_create]
  exact (cgroup_init_preserves _ genv).1

theorem container_create_state (config : ContainerConfig) (rand : Nat → Nat)
    (genv : CgroupEnv) (now : Int) :
    (container_create config rand genv now).1.state =
      ContainerState.created := by
  simp only [container_create]
  exact (cgroup_init_preserves _ genv).2

theorem applyConfigDefaults_id (config : ContainerConfig) (rand : Nat → Nat)
    (hid : config.id = "") :
    (applyConfigDefaults config rand).id = generate_container_id rand := by
  by_cases hn : config.name = "" <;>
    by_cases hh : config.hostname = "" <;>
    simp [applyConfigDefaults, hid, hn, hh]

theorem applyConfigDefaults_name (config : ContainerConfig) (rand : Nat → Nat)
    (hn : config.name = "") :
    (applyConfigDefaults config rand).name =
      (applyConfigDefaults config rand).id := by
  by_cases hid : config.id = "" <;>
    by_cases hh : config.hostname = "" <;>
    simp [applyConfigDefaults, hid, hn, hh]

theorem applyConfigDefaults_hostname (config : ContainerConfig)
    (rand : Nat → Nat) (hh : config.hostname = "") :
    (applyConfigDefaults config rand).hostname =
      (applyConfigDefaults config rand).name := by
  by_cases hid : config.id = "" <;>
    by_cases hn : config.name = "" <;>
    simp [applyConfigDefaults, hid, hn, hh]

/-- C7: `container_create` returns `MC_OK` and a record in state
`created` for every cgroup environment — in particular when cgroup v2 is
unavailable, where the `cgroup_init` failure is only logged as a warning —
and the record is persisted (`saveState` with state `created` is in the
trace).  When the config id is empty a fresh 12-character lowercase-hex
id is generated; an empty name defaults to the id and an empty hostname
to the name. -/
theorem create_nonfatal_cgroup (config : ContainerConfig) (rand : Nat → Nat)
    (genv : CgroupEnv) (now : Int) :
    (container_create config rand genv now).2.1 = MC_OK ∧
    (container_create config rand genv now).1.state = ContainerState.created ∧
    CreateEvent.saveState (container_create config rand genv now).1.config.id
        (container_create config rand genv now).1.config.name
        ContainerState.created 0 ∈
      (container_create config rand genv now).2.2 ∧
    (genv.v2Available = false →
      CreateEvent.logWarnCgroupInit ∈
        (container_create config rand genv now).2.2) ∧
    (config.id = "" →
      (container_create config rand genv now).1.config.id =
          generate_container_id rand ∧
        ((container_create config rand genv now).1.config.id).length = 12 ∧
        ∀ ch ∈ ((container_create config rand genv now).1.config.id).data,
          isLowerHexDigit ch = true) ∧
    (config.name = "" →
      (container_create config rand genv now).1.config.name =
        (container_create config rand genv now).1.config.id) ∧
    (config.hostname = "" →
      (container_create config rand genv now).1.config.hostname =
        (container_create config rand genv now).1.config.name) := by
  refine ⟨?_, container_create_state config rand genv now, ?_, ?_, ?_, ?_, ?_⟩
  · simp [container_create]
  · rw [container_create_config]
    simp [container_create]
  · intro hv
    simp [container_create, cgroup_init, hv, MC_ERR_CGROUP, MC_OK]
  · intro hid
    rw [container_create_config, applyConfigDefaults_id config rand hid]
    exact ⟨rfl, generate_id_length rand, generate_id_hex rand⟩
  · intro hname
    rw [container_create_config]
    exact applyConfigDefaults_name config rand hname
  · intro hhost
    rw [container_create_config]
    exact applyConfigDefaults_hostname config rand hhost

/-- C7 witness: creating with empty id/name/hostname on a host without
cgroup v2 still succeeds in state `created`, logs the cgroup warning,
and produces a 12-character id. -/
theorem create_nonfatal_cgroup_witness :
    (container_create configEmptyIds randW cgroupEnvUnavailable 0).2.1 =
        MC_OK ∧
      (container_create configEmptyIds randW cgroupEnvUnavailable 0).1.state =
        ContainerState.created ∧
      CreateEvent.logWarnCgroupInit ∈
        (container_create configEmptyIds randW cgroupEnvUnavailable 0).2.2 ∧
      ((container_create configEmptyIds randW
          cgroupEnvUnavailable 0).1.config.id).length = 12 :=
  ⟨(create_nonfatal_cgroup configEmptyIds randW cgroupEnvUnavailable 0).1,
   (create_nonfatal_cgroup configEmptyIds randW cgroupEnvUnavailable 0).2.1,
   (create_nonfatal_cgroup configEmptyIds randW cgroupEnvUnavailable 0).2.2.2.1
     rfl,
   ((create_nonfatal_cgroup configEmptyIds randW cgroupEnvUnavailable
       0).2.2.2.2.1 rfl).2.1⟩

/-! ## C8 -/

theorem usage_foldl (lines : List String) :
    ∀ acc : Int,
      lines.foldl (fun (acc : Int) (l : String) =>
        match scan_usage_usec l.data with
        | some v => v * 1000
        | none => acc) acc =
      (match lastUsageUsec lines with
       | some v => v * 1000
       | none => acc) := by
  induction lines with
  | nil => intro acc; rfl
  | cons l ls ih =>
    intro acc
    simp only [List.foldl_cons, lastUsageUsec]
    rw [ih]
    cases hscan : scan_usage_usec l.data <;>
      cases hlast : lastUsageUsec ls <;> simp [hscan, hlast]

/-- C8: `cgroup_get_metrics` reports memory limit −1 when `memory.max`
reads the literal `"max"` and the `atol`-parsed integer otherwise;
`cpu_usage_ns` is 1000 times the value of the (last) `usage_usec` line of
`cpu.stat` (0 when none matches); a `pids.max` of `"max"` reports pids
limit −1; and the function returns `MC_OK`. -/
theorem metrics_translation :
    (∀ (files : CgroupFiles) (s : String), files.memoryMaxStr = some s →
      (cgroup_get_metrics files).1.memory_limit_bytes =
        (if s = "max" then -1 else atol s)) ∧
    (∀ (files : CgroupFiles) (lines : List String),
      files.cpuStatLines = some lines →
      (cgroup_get_metrics files).1.cpu_usage_ns =
        1000 * (lastUsageUsec lines).getD 0) ∧
    (∀ files : CgroupFiles, files.pidsMaxStr = some "max" →
      (cgroup_get_metrics files).1.pids_limit = -1) ∧
    (∀ files : CgroupFiles, (cgroup_get_metrics files).2 = MC_OK) := by
  refine ⟨?_, ?_, ?_, ?_⟩
  · intro files s hmem
    cases hcpu : files.cpuStatLines <;> cases hp : files.pidsMaxStr <;>
      simp [cgroup_get_metrics, hmem, hcpu, hp]
  · intro files lines hcpu
    cases hmem : files.memoryMaxStr <;> cases hp : files.pidsMaxStr <;>
      simp only [cgroup_get_metrics, hmem, hcpu, hp] <;>
      rw [usage_foldl lines 0] <;>
      cases hlast : lastUsageUsec lines <;>
      simp [hlast, Int.mul_comm]
  · intro files hp
    cases hmem : files.memoryMaxStr <;> cases hcpu : files.cpuStatLines <;>
      simp [cgroup_get_metrics, hmem, hcpu, hp]
  · intro files
    cases hmem : files.memoryMaxStr <;> cases hcpu : files.cpuStatLines <;>
      cases hp : files.pidsMaxStr <;>
      simp [cgroup_get_metrics, hmem, hcpu, hp]

/-- C8 witness: concrete interface files — `memory.max` = `"max"` gives
−1, a numeric `memory.max` parses, `cpu.stat` with `usage_usec 250`
gives 250000 ns, `pids.max` = `"max"` gives −1. -/
theorem metrics_translation_witness :
    (cgroup_get_metrics cgroupFilesW).1.memory_limit_bytes = -1 ∧
    (cgroup_get_metrics cgroupFilesNumeric).1.memory_limit_bytes = 1048576 ∧
    (cgroup_get_metrics cgroupFilesW).1.cpu_usage_ns = 250000 ∧
    (cgroup_get_metrics cgroupFilesW).1.pids_limit = -1 := by
  refine ⟨?_, ?_, ?_, ?_⟩
  · have h := metrics_translation.1 cgroupFilesW "max" rfl
    rw [h]; decide
  · have h := metrics_translation.1 cgroupFilesNumeric "1048576" rfl
    rw [h]; decide
  · have h := metrics_translation.2.1 cgroupFilesW
      ["usage_usec 250", "user_usec 90"] rfl
    rw [h]; decide
  · exact metrics_translation.2.2.1 cgroupFilesW rfl

/-! ## C9 -/

/-- C9: when the containers state directory cannot be opened
(`opendir` returns NULL, modelled by `dir = none`), `container_list`
returns `MC_OK` with count 0 and a NULL list. -/
theorem list_opendir_failure : container_list none = (MC_OK, 0, none) := rfl

/-! ## C10 -/

/-- C10: once the preconditions pass (record running with positive pid,
the `kill(pid,0)` probe succeeds, `fork` and `waitpid` succeed),
`container_exec` returns `MC_OK` iff the command exited normally with
code 0 or was terminated by a signal; a normal exit with a nonzero code
yields `MC_ERR_PROCESS`. -/
theorem exec_result_code (c : Container) (cmd : List String) (xenv : ExecEnv)
    (hrun : c.state = ContainerState.running) (hpid : 0 < c.pid)
    (hcmd : cmd ≠ []) (hprobe : xenv.killProbeOk = true)
    (hfork : 0 ≤ xenv.forkResult) (hwait : xenv.waitpidOk = true) :
    (container_exec (some c) cmd xenv = MC_OK ↔
      xenv.status = WaitStatus.exited 0 ∨
        ∃ sig, xenv.status = WaitStatus.signaled sig) ∧
    (∀ n : Nat, n ≠ 0 → xenv.status = WaitStatus.exited n →
      container_exec (some c) cmd xenv = MC_ERR_PROCESS) := by
  have hnp : ¬(c.state ≠ ContainerState.running ∨ c.pid ≤ 0) := by
    push_neg
    exact ⟨hrun, by omega⟩
  have hf : ¬xenv.forkResult < 0 := by omega
  constructor
  · cases hst : xenv.status with
    | exited code =>
      by_cases hc : code = 0 <;>
        simp [container_exec, hcmd, hnp, hprobe, hf, hwait, hst, hc,
          MC_OK, MC_ERR_PROCESS]
    | signaled sig =>
      simp [container_exec, hcmd, hnp, hprobe, hf, hwait, hst]
  · intro n hn hst
    simp [container_exec, hcmd, hnp, hprobe, hf, hwait, hst, hn]

/-- C10 witness: a signal-killed command reports `MC_OK` — it is
indistinguishable from success — while a normal exit with code 3 reports
`MC_ERR_PROCESS`. -/
theorem exec_result_code_witness :
    container_exec (some runningContainer) ["/bin/true"] execEnvSignaled =
        MC_OK ∧
      container_exec (some runningContainer) ["/bin/true"]
        execEnvExitedNonzero = MC_ERR_PROCESS :=
  ⟨(exec_result_code runningContainer ["/bin/true"] execEnvSignaled rfl
      (by decide) (by decide) rfl (by decide) rfl).1.mpr (Or.inr ⟨9, rfl⟩),
   (exec_result_code runningContainer ["/bin/true"] execEnvExitedNonzero rfl
      (by decide) (by decide) rfl (by decide) rfl).2 3 (by decide) rfl⟩

end MiniContainer
